import Mathlib

/-!
Verification of the ShadView map data-binding layer (src/components/MapView.tsx).

The development shallowly embeds the pure logic of that file:
the query builder (buildEventQueryParams), the response normalizer
(toFeatureCollection), the fetch-effect state transitions, the cluster
detail pager (loadClusterPage) and the viewport-fit bounding-box
computation.  JavaScript numbers are modelled by an inductive type that
distinguishes finite rationals from NaN and the two infinities, so that
the code's typeof-number and Number.isFinite tests are both expressible
exactly.
-/

/-- Model of a JavaScript number value: a finite rational, NaN, or an
infinity.  All four satisfy the JavaScript test typeof x === "number";
only the first satisfies Number.isFinite. -/
inductive JSNum where
  | finite (q : ℚ)
  | nan
  | inf
  | negInf
deriving DecidableEq, Repr

/-- Model of a JavaScript value that can occur in a row or property field:
a number, a string, a boolean, or null.  An absent (undefined) field is
modelled by Option.none at the use site. -/
inductive JSVal where
  | num (n : JSNum)
  | str (s : String)
  | bool (b : Bool)
  | null
deriving DecidableEq, Repr

/-- JavaScript nullish coalescing a ?? b on possibly-absent values:
undefined (none) and null both fall through to the right operand. -/
def nc (x y : Option JSVal) : Option JSVal :=
  match x with
  | none => y
  | some JSVal.null => y
  | some v => some v

/-- JavaScript nullish coalescing whose final operand is a present
literal, so the result is always a value. -/
def ncv (x : Option JSVal) (d : JSVal) : JSVal :=
  match x with
  | none => d
  | some JSVal.null => d
  | some v => v

/-- The UI layer-toggle map consumed by buildEventQueryParams.  The
source reads enabled.wifi, enabled.gps, enabled.bluetooth, enabled.lte,
enabled.nr, enabled.gsm, enabled.cdma, enabled.gnss and enabled.phone;
an absent key is falsy, so a Bool per key (false when absent) is exact.
Unknown keys are never read, hence ignored. -/
structure Toggles where
  wifi : Bool
  gps : Bool
  bluetooth : Bool
  lte : Bool
  nr : Bool
  gsm : Bool
  cdma : Bool
  gnss : Bool
  phone : Bool
deriving DecidableEq, Repr

/-- Result record of buildEventQueryParams. -/
structure QueryParams where
  sources : List String
  networkTypes : List String
  devices : List String
deriving DecidableEq, Repr

/-- Model of Array.from(new Set(l)): JavaScript Set insertion keeps the
first occurrence of each element, in insertion order. -/
def jsSetDedup (l : List String) : List String :=
  l.foldl (fun acc x => if x ∈ acc then acc else acc ++ [x]) []

/-- Shallow embedding of buildEventQueryParams (MapView.tsx lines 44-73).
Each enabled toggle appends its tokens in the source's push order; the
three arrays are then deduplicated via Array.from(new Set(...)). -/
def buildEventQueryParams (enabled : Toggles) : QueryParams :=
  let sources :=
    (if enabled.wifi then ["beacon_message"] else []) ++
    (if enabled.bluetooth then ["bluetooth_message"] else []) ++
    (if enabled.lte then ["lte_message"] else []) ++
    (if enabled.nr then ["nr_message"] else []) ++
    (if enabled.gsm then ["gsm_message"] else []) ++
    (if enabled.cdma then ["cdms_message"] else []) ++
    (if enabled.gnss then ["gnss_message"] else []) ++
    (if enabled.phone then ["phone_state_message"] else [])
  let networkTypes :=
    (if enabled.wifi then ["WIFI"] else []) ++
    (if enabled.gps then ["GPS"] else []) ++
    (if enabled.gnss then ["GPS"] else [])
  let devices : List String := []
  { sources := jsSetDedup sources
    networkTypes := jsSetDedup networkTypes
    devices := jsSetDedup devices }

/-- The toggle map of the C6 scenario: wifi on, bluetooth explicitly off,
every other toggle absent (falsy). -/
def wifiOnlyToggles : Toggles :=
  { wifi := true, gps := false, bluetooth := false, lte := false
    nr := false, gsm := false, cdma := false, gnss := false, phone := false }

/-- The all-off toggle map: every toggle false, deriving an entirely
empty FilterDescriptor. -/
def allOffToggles : Toggles :=
  { wifi := false, gps := false, bluetooth := false, lte := false
    nr := false, gsm := false, cdma := false, gnss := false, phone := false }

/-- Model of String join with "," used on the token arrays. -/
def joinComma (l : List String) : String := String.intercalate "," l

/-- Shallow embedding of the query-string construction in the fetch
effect (MapView.tsx lines 338-348): start_time and end_time are always
set; network_type, source and device are set, in that order, only when
the corresponding token list is non-empty, with tokens joined by ",". -/
def buildRequestParams (q : QueryParams) (startTime endTime : String) :
    List (String × String) :=
  [("start_time", startTime), ("end_time", endTime)] ++
  (if q.networkTypes.isEmpty then [] else [("network_type", joinComma q.networkTypes)]) ++
  (if q.sources.isEmpty then [] else [("source", joinComma q.sources)]) ++
  (if q.devices.isEmpty then [] else [("device", joinComma q.devices)])

/-- The short-circuit test of the fetch effect (MapView.tsx line 325):
all three token lists simultaneously empty. -/
def descriptorIsEmpty (q : QueryParams) : Bool :=
  q.sources.isEmpty && q.networkTypes.isEmpty && q.devices.isEmpty

/-- A backend row or a feature-properties object: the fields that
toFeatureCollection reads.  Every field is optional (none models an
absent / undefined property); the object may carry further properties,
which the code only passes through unchanged via spread and which no
claim inspects, so they are not modelled. -/
structure Row where
  longitude : Option JSVal
  lon : Option JSVal
  lng : Option JSVal
  latitude : Option JSVal
  lat : Option JSVal
  kind : Option JSVal
  network_type : Option JSVal
  networkType : Option JSVal
  source : Option JSVal
  message_type : Option JSVal
  messageType : Option JSVal
  signalStrength : Option JSVal
  rssi : Option JSVal
  signal_strength : Option JSVal
deriving DecidableEq, Repr

/-- A row with every property absent. -/
def emptyRow : Row :=
  { longitude := none, lon := none, lng := none, latitude := none, lat := none
    kind := none, network_type := none, networkType := none, source := none
    message_type := none, messageType := none
    signalStrength := none, rssi := none, signal_strength := none }

/-- A GeoJSON-like feature as the normalizer handles it: a geometry
whose coordinate array, when well-formed (an array of length at least 2
holding numbers), is a longitude/latitude pair of JavaScript numbers —
none models a malformed or missing coordinates array — plus a
properties object. -/
structure Feature where
  geometry : Option (JSNum × JSNum)
  properties : Row
deriving DecidableEq, Repr

/-- The coalescing chain row.longitude ?? row.lon ?? row.lng
(MapView.tsx line 89). -/
def rowLng (row : Row) : Option JSVal := nc row.longitude (nc row.lon row.lng)

/-- The coalescing chain row.latitude ?? row.lat (MapView.tsx line 90). -/
def rowLat (row : Row) : Option JSVal := nc row.latitude row.lat

/-- The JavaScript test typeof v === "number" on a possibly-absent
value: true exactly for number values, including NaN and infinities. -/
def isNumVal : Option JSVal → Bool
  | some (JSVal.num _) => true
  | _ => false

/-- Both resolved coordinates of a row pass the typeof-number test of
MapView.tsx line 91 (the row survives the silent coordinate filter). -/
def hasNumCoords (row : Row) : Bool :=
  isNumVal (rowLng row) && isNumVal (rowLat row)

/-- The row-branch kind chain (MapView.tsx lines 94-100):
row.network_type ?? row.networkType ?? row.source ?? row.message_type ??
row.messageType ?? "UNKNOWN".  Note it never reads row.kind. -/
def rowKind (row : Row) : JSVal :=
  ncv row.network_type (ncv row.networkType (ncv row.source
    (ncv row.message_type (ncv row.messageType (JSVal.str "UNKNOWN")))))

/-- The signalStrength chain (MapView.tsx lines 108-112 and 136):
signalStrength ?? rssi ?? signal_strength ?? -100; the same chain is
used in the row branch and in the uniform second pass. -/
def propSignal (p : Row) : JSVal :=
  ncv p.signalStrength (ncv p.rssi
    (ncv p.signal_strength (JSVal.num (JSNum.finite (-100)))))

/-- The second-pass kind chain (MapView.tsx lines 122-129):
p.kind ?? p.network_type ?? p.networkType ?? p.source ??
p.message_type ?? p.messageType ?? "UNKNOWN". -/
def featKind (p : Row) : JSVal := ncv p.kind (rowKind p)

/-- The row-to-feature step of toFeatureCollection (MapView.tsx lines
88-115): resolve the coordinate aliases, drop the row (null, removed by
filter(Boolean)) unless both resolved coordinates are of type number,
otherwise build a Point feature whose properties are the spread row
with kind and signalStrength overridden by the derived values. -/
def rowToFeature (row : Row) : Option Feature :=
  match rowLng row, rowLat row with
  | some (JSVal.num lngN), some (JSVal.num latN) =>
    some { geometry := some (lngN, latN)
           properties := { row with
             kind := some (rowKind row)
             signalStrength := some (propSignal row) } }
  | _, _ => none

/-- The uniform second pass of toFeatureCollection (MapView.tsx lines
120-139): keep the feature, re-deriving kind and signalStrength on its
properties so both always exist. -/
def normalizeFeature (f : Feature) : Feature :=
  { f with properties := { f.properties with
      kind := some (featKind f.properties)
      signalStrength := some (propSignal f.properties) } }

/-- The shape-relevant part of a JSON object payload: its type tag and
its features, events and data members (each present or absent).  The
fields the code never dispatches on (data) are carried so that the
dispatch can be shown to ignore them. -/
structure PayloadObj where
  typeTag : Option String
  features : Option (List Feature)
  events : Option (List Row)
  data : Option (List Row)
deriving DecidableEq, Repr

/-- A raw decoded response body: an array of rows, an object, or a
nullish value. -/
inductive Payload where
  | arr (rows : List Row)
  | obj (o : PayloadObj)
  | nullish
deriving DecidableEq, Repr

/-- The FeatureCollection test of MapView.tsx lines 77-79:
data?.type === "FeatureCollection" && Array.isArray(data.features);
returns the features array when the test passes. -/
def fcBranch : Payload → Option (List Feature)
  | Payload.obj o => if o.typeTag = some "FeatureCollection" then o.features else none
  | _ => none

/-- The row-source selection of MapView.tsx lines 82-87:
Array.isArray(data) ? data : Array.isArray(data?.events) ? data.events : []. -/
def rawRows : Payload → List Row
  | Payload.arr rows => rows
  | Payload.obj o =>
    match o.events with
    | some es => es
    | none => []
  | Payload.nullish => []

/-- Shallow embedding of toFeatureCollection (MapView.tsx lines 76-142):
either take the features of a tagged FeatureCollection, or map the
selected raw rows through the row-to-feature step; then apply the
uniform second pass to every feature. -/
def toFeatureCollection (d : Payload) : List Feature :=
  (match fcBranch d with
   | some fs => fs
   | none => (rawRows d).filterMap rowToFeature).map normalizeFeature

/-- A row whose resolved latitude is NaN: typeof NaN === "number", so
the coordinate filter keeps it although NaN is not finite. -/
def nanLatRow : Row :=
  { emptyRow with longitude := some (JSVal.num (JSNum.finite 1))
                  latitude := some (JSVal.num JSNum.nan) }

/-- A row with ordinary finite coordinates and nothing else. -/
def goodRow : Row :=
  { emptyRow with longitude := some (JSVal.num (JSNum.finite 1))
                  latitude := some (JSVal.num (JSNum.finite 2)) }

/-- A row carrying both a kind field ("A") and a network_type field
("B"), with finite coordinates. -/
def kindNetRow : Row :=
  { emptyRow with longitude := some (JSVal.num (JSNum.finite 1))
                  latitude := some (JSVal.num (JSNum.finite 2))
                  kind := some (JSVal.str "A")
                  network_type := some (JSVal.str "B") }

/-- Payload of shape events-list around the NaN-latitude row. -/
def nanLatPayload : Payload :=
  Payload.obj { typeTag := none, features := none, events := some [nanLatRow], data := none }

/-- Payload of shape data-list around the good row. -/
def dataShapePayload : Payload :=
  Payload.obj { typeTag := none, features := none, events := none, data := some [goodRow] }

/-- Payload of shape events-list around the kind/network_type row. -/
def kindNetPayload : Payload :=
  Payload.obj { typeTag := none, features := none, events := some [kindNetRow], data := none }

/-- Payload of shape events-list around the good row, used as the
concrete instance of the amended C1 statement. -/
def goodRowsPayload : Payload :=
  Payload.obj { typeTag := none, features := none, events := some [goodRow], data := none }

/-- The feature that goodRow normalizes to. -/
def goodFeature : Feature :=
  { geometry := some (JSNum.finite 1, JSNum.finite 2)
    properties := { emptyRow with
      longitude := some (JSVal.num (JSNum.finite 1))
      latitude := some (JSVal.num (JSNum.finite 2))
      kind := some (JSVal.str "UNKNOWN")
      signalStrength := some (JSVal.num (JSNum.finite (-100))) } }

/-- The feature that kindNetRow normalizes to: kind is the row's
network_type value, not its kind value. -/
def kindNetFeature : Feature :=
  { geometry := some (JSNum.finite 1, JSNum.finite 2)
    properties := { kindNetRow with
      kind := some (JSVal.str "B")
      signalStrength := some (JSVal.num (JSNum.finite (-100))) } }

/-- The component state touched by the whole-dataset fetch effect:
the active point collection (the features of the geo FeatureCollection),
the loading flag and the error banner text. -/
structure ViewState where
  geo : List Feature
  loading : Bool
  error : Option String
deriving DecidableEq, Repr

/-- How the awaited request body of the fetch effect can resolve:
a decoded JSON payload; a response with non-2xx status and its body
text; a rejection that is not an AbortError, carrying the exception
message when it has one; or an AbortError rejection from the
superseding generation's controller.abort() (in which case the
controller's signal is aborted). -/
inductive FetchOutcome where
  | success (payload : Payload)
  | httpError (status : Nat) (body : String)
  | transportError (msg : Option String)
  | aborted
deriving DecidableEq, Repr

/-- Shallow embedding of the async body of the fetch effect
(MapView.tsx lines 336-369) as a state transition per outcome:
on success the normalized payload replaces geo and loading ends; a
non-ok response throws Error("API error status: text"), which the
catch turns into an empty geo and that error message; any other
non-abort rejection likewise empties geo and surfaces e.message (or
the fallback text); an AbortError skips the catch body and, because
the signal is aborted, also skips setLoading(false) in finally, so the
state is untouched. -/
def handleFetchOutcome (o : FetchOutcome) (s : ViewState) : ViewState :=
  match o with
  | FetchOutcome.success d =>
    { s with geo := toFeatureCollection d, loading := false }
  | FetchOutcome.httpError status body =>
    { geo := [], loading := false
      error := some ("API error " ++ toString status ++ ": " ++ body) }
  | FetchOutcome.transportError msg =>
    { geo := [], loading := false, error := some (msg.getD "Failed to load events") }
  | FetchOutcome.aborted => s

/-- Shallow embedding of the synchronous head of the fetch effect
(MapView.tsx lines 321-350): derive the descriptor from the toggles; if
it is entirely empty, clear geo, end loading, clear the error and issue
no request (none); otherwise start loading, clear the error and issue a
request with the built query parameters (some). -/
def fetchEffectStart (enabled : Toggles) (startTime endTime : String) (s : ViewState) :
    ViewState × Option (List (String × String)) :=
  let q := buildEventQueryParams enabled
  if descriptorIsEmpty q then
    ({ geo := [], loading := false, error := none }, none)
  else
    ({ s with loading := true, error := none },
     some (buildRequestParams q startTime endTime))

/-- The fixed page size of the detail pager (MapView.tsx line 243). -/
def PAGE_SIZE : Nat := 50

/-- The detail-pager state owned by the drawer (MapView.tsx lines
229-235). -/
structure PagerState (α : Type) where
  activeClusterId : Option Nat
  activeClusterCount : Nat
  clusterPage : Nat
  clusterRows : List α
  drawerOpen : Bool
deriving DecidableEq, Repr

/-- Model of the engine's getClusterLeaves(clusterId, limit, offset)
accessor: slicing the cluster's leaf list. -/
def getClusterLeaves {α : Type} (leaves : List α) (limit offset : Nat) : List α :=
  (leaves.drop offset).take limit

/-- Shallow embedding of loadClusterPage (MapView.tsx lines 246-280) on
a successful callback: query the accessor with limit PAGE_SIZE and
offset (page - 1) * PAGE_SIZE, then populate the pager state and open
the drawer. -/
def loadClusterPage {α : Type} (leaves : List α) (clusterId count page : Nat) :
    PagerState α :=
  let offset := (page - 1) * PAGE_SIZE
  { activeClusterId := some clusterId
    activeClusterCount := count
    clusterPage := page
    clusterRows := getClusterLeaves leaves PAGE_SIZE offset
    drawerOpen := true }

/-- The epsilon used to expand a degenerate bounding box
(MapView.tsx line 407: pad = 0.001). -/
def padQ : ℚ := 1 / 1000

/-- The per-feature guard of the viewport-fit loop (MapView.tsx lines
391-396): skip the feature unless its coordinate array is well-formed
and both coordinates are finite numbers; otherwise yield the finite
longitude/latitude pair. -/
def finCoord (f : Feature) : Option (ℚ × ℚ) :=
  match f.geometry with
  | some (JSNum.finite lngQ, JSNum.finite latQ) => some (lngQ, latQ)
  | _ => none

/-- The finite-coordinate points of a dataset, in order. -/
def finPts (feats : List Feature) : List (ℚ × ℚ) := feats.filterMap finCoord

/-- One iteration of the viewport-fit loop (MapView.tsx lines 390-402)
on the accumulator (minLng, minLat, maxLng, maxLat); none models the
initial accumulator (plus and minus Infinity) that no finite point has
touched yet. -/
def fitStep (acc : Option (ℚ × ℚ × ℚ × ℚ)) (f : Feature) : Option (ℚ × ℚ × ℚ × ℚ) :=
  match finCoord f with
  | none => acc
  | some (lngQ, latQ) =>
    match acc with
    | none => some (lngQ, latQ, lngQ, latQ)
    | some (mnLng, mnLat, mxLng, mxLat) =>
      some (min mnLng lngQ, min mnLat latQ, max mxLng lngQ, max mxLat latQ)

/-- The viewport-fit loop over all features. -/
def fitLoop : List Feature → Option (ℚ × ℚ × ℚ × ℚ) → Option (ℚ × ℚ × ℚ × ℚ)
  | [], acc => acc
  | f :: rest, acc => fitLoop rest (fitStep acc f)

/-- Shallow embedding of the viewport-fit effect body (MapView.tsx
lines 382-424): no command when the dataset is empty or when the
accumulator never became finite; the epsilon expansion on both axes
when the box is degenerate on both axes; the fitBounds command
carries ((minLng, minLat), (maxLng, maxLat)). -/
def computeFitBounds (feats : List Feature) : Option ((ℚ × ℚ) × (ℚ × ℚ)) :=
  if feats.isEmpty then none
  else
    match fitLoop feats none with
    | none => none
    | some (mnLng, mnLat, mxLng, mxLat) =>
      if mnLng = mxLng ∧ mnLat = mxLat then
        some ((mnLng - padQ, mnLat - padQ), (mxLng + padQ, mxLat + padQ))
      else
        some ((mnLng, mnLat), (mxLng, mxLat))

/-- A one-feature dataset sitting at longitude 3, latitude 4. -/
def singlePointFeats : List Feature :=
  [{ geometry := some (JSNum.finite 3, JSNum.finite 4), properties := emptyRow }]

theorem jsSetDedup_nodup (l : List String) : (jsSetDedup l).Nodup := by
  have h : ∀ (l acc : List String), acc.Nodup →
      (l.foldl (fun acc x => if x ∈ acc then acc else acc ++ [x]) acc).Nodup := by
    intro l
    induction l with
    | nil => intro acc hacc; exact hacc
    | cons x xs ih =>
      intro acc hacc
      simp only [List.foldl_cons]
      by_cases hx : x ∈ acc
      · simp only [if_pos hx]
        exact ih acc hacc
      · simp only [if_neg hx]
        apply ih
        have : (acc ++ [x]).Nodup := by
          rw [List.nodup_append]
          exact ⟨hacc, List.nodup_singleton x, by simpa using hx⟩
        exact this
  exact h l [] List.nodup_nil

/-- C6: with toggles wifi true and bluetooth false (all others absent),
buildEventQueryParams returns sources exactly beacon_message,
network types exactly WIFI, and an empty device list.  (The time range
is irrelevant: buildEventQueryParams does not consume it.) -/
theorem c6_theorem :
    buildEventQueryParams wifiOnlyToggles =
      { sources := ["beacon_message"], networkTypes := ["WIFI"], devices := [] } := by
  decide

/-- C7: buildEventQueryParams is deterministic and idempotent (two calls
on identical input give equal descriptors) and each returned token list
is duplicate-free, for every toggle map. -/
theorem c7_theorem (enabled : Toggles) :
    buildEventQueryParams enabled = buildEventQueryParams enabled ∧
    (buildEventQueryParams enabled).sources.Nodup ∧
    (buildEventQueryParams enabled).networkTypes.Nodup ∧
    (buildEventQueryParams enabled).devices.Nodup :=
  ⟨rfl, jsSetDedup_nodup _, jsSetDedup_nodup _, jsSetDedup_nodup _⟩

/-- C10: for every toggle map the devices list of the descriptor is
empty, and consequently no key-value pair with key device ever appears
in the query parameters built by the fetch effect. -/
theorem c10_theorem (enabled : Toggles) (startTime endTime : String) :
    (buildEventQueryParams enabled).devices = [] ∧
    (buildRequestParams (buildEventQueryParams enabled) startTime endTime).filter
      (fun kv => kv.fst == "device") = [] := by
  refine ⟨rfl, ?_⟩
  have hdev : (buildEventQueryParams enabled).devices = [] := rfl
  simp only [buildRequestParams, hdev, List.isEmpty_nil, if_pos]
  by_cases h1 : (buildEventQueryParams enabled).networkTypes.isEmpty <;>
    by_cases h2 : (buildEventQueryParams enabled).sources.isEmpty <;>
      simp [h1, h2, List.filter]

theorem rowToFeature_isSome (row : Row) :
    (rowToFeature row).isSome = hasNumCoords row := by
  cases h1 : rowLng row with
  | none => simp [rowToFeature, hasNumCoords, isNumVal, h1]
  | some v =>
    cases h2 : rowLat row with
    | none => cases v <;> simp [rowToFeature, hasNumCoords, isNumVal, h1, h2]
    | some w => cases v <;> cases w <;>
        simp [rowToFeature, hasNumCoords, isNumVal, h1, h2]

theorem filterMap_full_length_iff {α β : Type} (f : α → Option β) :
    ∀ l : List α, ((l.filterMap f).length = l.length ↔ ∀ x ∈ l, (f x).isSome = true) := by
  intro l
  induction l with
  | nil => simp
  | cons a l ih =>
    cases h : f a with
    | none =>
      simp only [List.filterMap_cons, h, List.length_cons]
      constructor
      · intro hlen
        exfalso
        have hle := List.length_filterMap_le f l
        omega
      · intro hall
        exact absurd (hall a (by simp)) (by simp [h])
    | some b => simp [List.filterMap_cons, h, ih]

theorem normalizeFeature_geometry (f : Feature) :
    (normalizeFeature f).geometry = f.geometry := rfl

/-- C1 counterexample: a row whose resolved latitude is NaN (not a
finite number) is NOT excluded — the claim says it is silently excluded
and that every emitted feature has finite coordinates, but the code
only tests typeof, which NaN passes, so the feature is emitted with a
NaN latitude. -/
theorem c1_counterexample :
    (toFeatureCollection nanLatPayload).length = 1 ∧
    (toFeatureCollection nanLatPayload).map (fun f => f.geometry) =
      [some (JSNum.finite 1, JSNum.nan)] := by
  decide

/-- C1 amended: longitude is resolved from longitude/lon/lng and
latitude from latitude/lat (first present wins, as embodied in rowLng
and rowLat), and a row is excluded iff either resolved coordinate is
missing or not of JavaScript type number (finiteness is NOT checked);
hence the output feature count is at most the input row count, with
equality iff every row has number-typed resolved coordinates, and every
emitted feature has a coordinate pair of JavaScript numbers (possibly
non-finite). -/
theorem c1_theorem (rows : List Row) :
    (toFeatureCollection (Payload.obj
      { typeTag := none, features := none, events := some rows, data := none })).length
        ≤ rows.length ∧
    ((toFeatureCollection (Payload.obj
      { typeTag := none, features := none, events := some rows, data := none })).length
        = rows.length ↔ ∀ row ∈ rows, hasNumCoords row = true) ∧
    ∀ f ∈ toFeatureCollection (Payload.obj
      { typeTag := none, features := none, events := some rows, data := none }),
        f.geometry.isSome = true := by
  have hfc : toFeatureCollection (Payload.obj
      { typeTag := none, features := none, events := some rows, data := none }) =
      (rows.filterMap rowToFeature).map normalizeFeature := rfl
  rw [hfc]
  refine ⟨?_, ?_, ?_⟩
  · rw [List.length_map]
    exact List.length_filterMap_le rowToFeature rows
  · rw [List.length_map, filterMap_full_length_iff]
    constructor
    · intro h row hrow
      rw [← rowToFeature_isSome]
      exact h row hrow
    · intro h row hrow
      rw [rowToFeature_isSome]
      exact h row hrow
  · intro f hf
    rcases List.mem_map.mp hf with ⟨g, hg, rfl⟩
    rcases List.mem_filterMap.mp hg with ⟨row, _, hrow⟩
    rw [normalizeFeature_geometry]
    cases h1 : rowLng row with
    | none => rw [rowToFeature, h1] at hrow; exact absurd hrow (by simp)
    | some v =>
      cases h2 : rowLat row with
      | none =>
        rw [rowToFeature, h1, h2] at hrow
        cases v <;> simp at hrow
      | some w =>
        rw [rowToFeature, h1, h2] at hrow
        cases v <;> cases w <;> simp at hrow
        rw [← hrow]
        rfl

/-- C1 witness: the amended statement instantiated at a one-row list
with number-typed coordinates, discharging the equality direction of
the iff and the membership hypothesis of the geometry conjunct. -/
theorem c1_witness :
    (toFeatureCollection goodRowsPayload).length = [goodRow].length ∧
    goodFeature.geometry.isSome = true :=
  ⟨((c1_theorem [goodRow]).2.1).mpr (by decide),
   (c1_theorem [goodRow]).2.2 goodFeature (by decide)⟩

/-- C2 counterexample: a payload of shape data-list around a perfectly
normalizable row yields an empty feature list — the claim says the
data shape is recognized and its rows normalized.  The second conjunct
shows the row itself is normalizable, so emptiness is due to the shape
not being recognized. -/
theorem c2_counterexample :
    toFeatureCollection dataShapePayload = [] ∧
    (rowToFeature goodRow).isSome = true := by
  decide

/-- C2 amended: the normalizer recognizes, in priority order, (a) a
GeoJSON-like object tagged FeatureCollection with a features array,
then for everything else (e) a bare array and (b) an object with an
events array; an object carrying features without the FeatureCollection
type tag, or carrying only a data array, is NOT recognized and
normalizes to the empty feature list. -/
theorem c2_theorem :
    (∀ (fs : List Feature) (es ds : Option (List Row)),
      toFeatureCollection (Payload.obj
        { typeTag := some "FeatureCollection", features := some fs, events := es, data := ds }) =
        fs.map normalizeFeature) ∧
    (∀ rows : List Row,
      toFeatureCollection (Payload.arr rows) =
        (rows.filterMap rowToFeature).map normalizeFeature) ∧
    (∀ (rows : List Row) (ds : Option (List Row)),
      toFeatureCollection (Payload.obj
        { typeTag := none, features := none, events := some rows, data := ds }) =
        (rows.filterMap rowToFeature).map normalizeFeature) ∧
    (∀ (fs : List Feature) (ds : Option (List Row)),
      toFeatureCollection (Payload.obj
        { typeTag := none, features := some fs, events := none, data := ds }) = []) ∧
    (∀ ds : List Row,
      toFeatureCollection (Payload.obj
        { typeTag := none, features := none, events := none, data := some ds }) = []) := by
  refine ⟨fun fs es ds => ?_, fun rows => rfl, fun rows ds => rfl,
    fun fs ds => rfl, fun ds => rfl⟩
  simp [toFeatureCollection, fcBranch]

/-- C3 counterexample: a row carrying both kind "A" and network_type
"B" is normalized with kind "B" — the claim's priority order (kind
first) predicts "A". -/
theorem c3_counterexample :
    (toFeatureCollection kindNetPayload).map (fun f => f.properties.kind) =
      [some (JSVal.str "B")] ∧
    some (JSVal.str "B") ≠ some (JSVal.str "A") := by
  decide

/-- C3 amended: every feature of the normalizer's output carries kind
and signalStrength properties; signalStrength is derived everywhere in
the claimed order signalStrength, rssi, signal_strength, else -100; but
for row-shaped input the kind written into the feature is derived from
network_type/networkType, source, message_type/messageType, else
"UNKNOWN" — the row's own kind field is ignored and overridden — while
only the uniform second pass (applied to already-Feature-shaped input)
considers an existing kind property first. -/
theorem c3_theorem :
    (∀ (p : Payload), ∀ f ∈ toFeatureCollection p,
      (f.properties.kind).isSome = true ∧ (f.properties.signalStrength).isSome = true) ∧
    (∀ (row : Row) (f : Feature), rowToFeature row = some f →
      f.properties.kind = some (rowKind row) ∧
      f.properties.signalStrength = some (propSignal row)) ∧
    (∀ f : Feature,
      (normalizeFeature f).properties.kind = some (featKind f.properties) ∧
      (normalizeFeature f).properties.signalStrength = some (propSignal f.properties)) := by
  refine ⟨?_, ?_, fun f => ⟨rfl, rfl⟩⟩
  · intro p f hf
    rw [toFeatureCollection] at hf
    rcases List.mem_map.mp hf with ⟨g, _, rfl⟩
    exact ⟨rfl, rfl⟩
  · intro row f h
    cases h1 : rowLng row with
    | none => rw [rowToFeature, h1] at h; exact absurd h (by simp)
    | some v =>
      cases h2 : rowLat row with
      | none =>
        rw [rowToFeature, h1, h2] at h
        cases v <;> simp at h
      | some w =>
        rw [rowToFeature, h1, h2] at h
        cases v <;> cases w <;> simp at h
        rw [← h]
        exact ⟨rfl, rfl⟩

/-- C3 witness: the amended statement instantiated at the
kind/network_type row, discharging the membership and the
rowToFeature success hypotheses. -/
theorem c3_witness :
    ((kindNetFeature.properties.kind).isSome = true ∧
      (kindNetFeature.properties.signalStrength).isSome = true) ∧
    (kindNetFeature.properties.kind = some (rowKind kindNetRow) ∧
      kindNetFeature.properties.signalStrength = some (propSignal kindNetRow)) :=
  ⟨c3_theorem.1 kindNetPayload kindNetFeature (by decide),
   c3_theorem.2.1 kindNetRow kindNetFeature (by decide)⟩

/-- C4: in the whole-dataset fetch path, a non-2xx completion sets the
error to a message carrying the status and the response body text and
clears the point collection; a transport rejection sets the error to
the exception message (or its fallback) and clears the point
collection; an AbortError from a superseded generation leaves the
point collection, the loading flag and the error untouched. -/
theorem c4_theorem :
    (∀ (status : Nat) (body : String) (s : ViewState),
      handleFetchOutcome (FetchOutcome.httpError status body) s =
        { geo := [], loading := false
          error := some ("API error " ++ toString status ++ ": " ++ body) }) ∧
    (∀ (msg : Option String) (s : ViewState),
      handleFetchOutcome (FetchOutcome.transportError msg) s =
        { geo := [], loading := false, error := some (msg.getD "Failed to load events") }) ∧
    (∀ s : ViewState,
      (handleFetchOutcome FetchOutcome.aborted s).geo = s.geo ∧
      (handleFetchOutcome FetchOutcome.aborted s).loading = s.loading ∧
      (handleFetchOutcome FetchOutcome.aborted s).error = s.error) :=
  ⟨fun _ _ _ => rfl, fun _ _ => rfl, fun _ => ⟨rfl, rfl, rfl⟩⟩

/-- C5: whenever the descriptor derived from the enabled-layers map is
entirely empty, the fetch effect short-circuits: the point collection
becomes empty, loading is false, the error is cleared, and no request
is issued. -/
theorem c5_theorem (enabled : Toggles) (startTime endTime : String) (s : ViewState)
    (h : descriptorIsEmpty (buildEventQueryParams enabled) = true) :
    fetchEffectStart enabled startTime endTime s =
      ({ geo := [], loading := false, error := none }, none) := by
  simp only [fetchEffectStart, h, if_true]

/-- C5 witness: the all-off toggle map derives an empty descriptor and
short-circuits, starting from a dirty state. -/
theorem c5_witness :
    descriptorIsEmpty (buildEventQueryParams allOffToggles) = true ∧
    fetchEffectStart allOffToggles "2025-01-01T00:00:00Z" "2025-01-02T00:00:00Z"
        { geo := [], loading := true, error := some "old" } =
      ({ geo := [], loading := false, error := none }, none) :=
  ⟨by decide,
   c5_theorem allOffToggles "2025-01-01T00:00:00Z" "2025-01-02T00:00:00Z"
     { geo := [], loading := true, error := some "old" } (by decide)⟩

/-- C8: for a cluster with pointCount P (the length of its leaf list)
and page k at least 1, loadClusterPage queries the accessor with limit
PAGE_SIZE = 50 and offset (k - 1) * 50, so the pager shows
min 50 (P - 50 * (k - 1)) rows (equivalently, over the integers,
min(50, max(0, P - 50 * (k - 1)))), totalCount P and page k. -/
theorem c8_theorem {α : Type} (leaves : List α) (clusterId k : Nat) (h : 1 ≤ k) :
    (loadClusterPage leaves clusterId leaves.length k).clusterRows =
      getClusterLeaves leaves 50 ((k - 1) * 50) ∧
    (loadClusterPage leaves clusterId leaves.length k).clusterRows.length =
      min 50 (leaves.length - 50 * (k - 1)) ∧
    ((loadClusterPage leaves clusterId leaves.length k).clusterRows.length : Int) =
      min 50 (max 0 ((leaves.length : Int) - 50 * ((k : Int) - 1))) ∧
    (loadClusterPage leaves clusterId leaves.length k).activeClusterCount =
      leaves.length ∧
    (loadClusterPage leaves clusterId leaves.length k).clusterPage = k := by
  refine ⟨rfl, ?_, ?_, rfl, rfl⟩
  · simp only [loadClusterPage, getClusterLeaves, PAGE_SIZE,
      List.length_take, List.length_drop]
    omega
  · simp only [loadClusterPage, getClusterLeaves, PAGE_SIZE,
      List.length_take, List.length_drop]
    omega

/-- C8 witness: the scenario point_count = 120, pageSize 50; page 3
shows 20 rows, totalCount 120 and page 3. -/
theorem c8_witness :
    1 ≤ 3 ∧
    (loadClusterPage (List.range 120) 7 (List.range 120).length 3).clusterRows.length =
      min 50 ((List.range 120).length - 50 * (3 - 1)) ∧
    (loadClusterPage (List.range 120) 7 (List.range 120).length 3).activeClusterCount =
      (List.range 120).length ∧
    (loadClusterPage (List.range 120) 7 (List.range 120).length 3).clusterPage = 3 :=
  ⟨by decide,
   (c8_theorem (List.range 120) 7 3 (by decide)).2.1,
   (c8_theorem (List.range 120) 7 3 (by decide)).2.2.2.1,
   (c8_theorem (List.range 120) 7 3 (by decide)).2.2.2.2⟩

theorem finPts_mem_cons {f : Feature} {rest : List Feature} :
    ∀ q ∈ finPts rest, q ∈ finPts (f :: rest) := by
  intro q hq
  simp only [finPts, List.filterMap_cons] at hq ⊢
  cases hf : finCoord f
  · simpa using hq
  · simp [hq]

theorem fitLoop_const (x y : ℚ) :
    ∀ feats : List Feature, (∀ q ∈ finPts feats, q = (x, y)) →
      fitLoop feats (some (x, y, x, y)) = some (x, y, x, y) := by
  intro feats
  induction feats with
  | nil => intro _; rfl
  | cons f rest ih =>
    intro hall
    have hrest : ∀ q ∈ finPts rest, q = (x, y) := fun q hq =>
      hall q (finPts_mem_cons q hq)
    simp only [fitLoop]
    cases hf : finCoord f with
    | none =>
      rw [show fitStep (some (x, y, x, y)) f = some (x, y, x, y) by simp [fitStep, hf]]
      exact ih hrest
    | some pr =>
      obtain ⟨a, b⟩ := pr
      have hab : (a, b) = (x, y) := by
        apply hall
        simp [finPts, List.filterMap_cons, hf]
      obtain ⟨ha, hb⟩ := Prod.mk.injEq .. ▸ hab
      subst ha; subst hb
      rw [show fitStep (some (a, b, a, b)) f = some (a, b, a, b) by
        simp [fitStep, hf]]
      exact ih hrest

theorem fitLoop_all_eq (x y : ℚ) :
    ∀ feats : List Feature, finPts feats ≠ [] → (∀ q ∈ finPts feats, q = (x, y)) →
      fitLoop feats none = some (x, y, x, y) := by
  intro feats
  induction feats with
  | nil => intro h _; exact absurd rfl h
  | cons f rest ih =>
    intro hne hall
    have hrest : ∀ q ∈ finPts rest, q = (x, y) := fun q hq =>
      hall q (finPts_mem_cons q hq)
    simp only [fitLoop]
    cases hf : finCoord f with
    | none =>
      rw [show fitStep none f = none by simp [fitStep, hf]]
      apply ih
      · intro hnil
        apply hne
        simp [finPts, List.filterMap_cons, hf]
        simpa [finPts] using hnil
      · exact hrest
    | some pr =>
      obtain ⟨a, b⟩ := pr
      have hab : (a, b) = (x, y) := by
        apply hall
        simp [finPts, List.filterMap_cons, hf]
      obtain ⟨ha, hb⟩ := Prod.mk.injEq .. ▸ hab
      subst ha; subst hb
      rw [show fitStep none f = some (a, b, a, b) by simp [fitStep, hf]]
      exact fitLoop_const a b rest hrest

theorem fitLoop_no_fin :
    ∀ feats : List Feature, finPts feats = [] → fitLoop feats none = none := by
  intro feats
  induction feats with
  | nil => intro _; rfl
  | cons f rest ih =>
    intro h
    simp only [finPts, List.filterMap_cons] at h
    simp only [fitLoop]
    cases hf : finCoord f with
    | none =>
      rw [hf] at h
      rw [show fitStep none f = none by simp [fitStep, hf]]
      exact ih h
    | some pr =>
      rw [hf] at h
      simp at h

/-- C9: over any dataset with at least one finite-coordinate point all
of whose finite-coordinate points are identical, the viewport-fit
computation emits a fitBounds command whose box, after the epsilon
expansion, has min strictly below max on both axes; over a dataset with
zero finite-coordinate points no fitBounds command is emitted. -/
theorem c9_theorem :
    (∀ (feats : List Feature) (x y : ℚ), finPts feats ≠ [] →
      (∀ q ∈ finPts feats, q = (x, y)) →
      computeFitBounds feats = some ((x - padQ, y - padQ), (x + padQ, y + padQ)) ∧
      x - padQ < x + padQ ∧ y - padQ < y + padQ) ∧
    (∀ feats : List Feature, finPts feats = [] → computeFitBounds feats = none) := by
  have hpad : (0 : ℚ) < padQ := by norm_num [padQ]
  constructor
  · intro feats x y hne hall
    have hfeats : feats ≠ [] := by
      intro h
      subst h
      exact hne rfl
    have hloop := fitLoop_all_eq x y feats hne hall
    refine ⟨?_, by linarith, by linarith⟩
    simp only [computeFitBounds]
    rw [if_neg (by simpa [List.isEmpty_iff] using hfeats), hloop]
    simp
  · intro feats h
    rcases Decidable.em (feats = []) with rfl | hne
    · rfl
    · simp only [computeFitBounds]
      rw [if_neg (by simpa [List.isEmpty_iff] using hne), fitLoop_no_fin feats h]

/-- C9 witness: the single-point dataset at (3, 4) yields the expanded
non-degenerate box. -/
theorem c9_witness :
    finPts singlePointFeats ≠ [] ∧
    computeFitBounds singlePointFeats =
      some ((3 - padQ, 4 - padQ), (3 + padQ, 4 + padQ)) ∧
    (3 : ℚ) - padQ < 3 + padQ ∧ (4 : ℚ) - padQ < 4 + padQ :=
  ⟨by decide,
   (c9_theorem.1 singlePointFeats 3 4 (by decide) (by decide)).1,
   (c9_theorem.1 singlePointFeats 3 4 (by decide) (by decide)).2.1,
   (c9_theorem.1 singlePointFeats 3 4 (by decide) (by decide)).2.2⟩
